import Mathlib

/-!
# Verification of `rtm/plotting.py`

A shallow embedding of the plotting module of the `rtm` repository
(`src/rtm/plotting.py`) together with theorems settling the frozen claims
about it.

Modelling conventions:

* Python/numpy floating-point numbers are modelled as rationals (`ℚ`); the
  concrete constants appearing in the source (0.5, 220, 350, 1000, ...) are
  all exactly representable, so no rounding behaviour is lost for the
  properties at stake.
* A numpy scalar that may be NaN is modelled as `Option ℚ`, with `none`
  playing the role of NaN.
* Stateful Python code (in-place mutation of the stack buffer, in-place
  sorting of a caller-supplied list) is modelled by returning the post-call
  state of the caller-visible objects alongside the figure data.
* Fallible code returns `Except PyErr`.
* External collaborators that are not part of this repository are either
  passed in as parameters (the geodesic distance function
  `obspy.geodetics.gps2dist_azimuth`, the map projection produced by
  `_proj_from_grid`) or modelled from the spec where the spec pins down
  their behaviour (`get_peak_coordinates`); each such definition is marked.
-/

namespace RTM

/-- A numpy scalar that may be NaN: `none` models NaN, `some q` a real value. -/
abbrev Val := Option ℚ

/-- Python exceptions raised by the code paths modelled here.  `projError`
stands for the PROJ/cartopy exception raised when constructing an invalid
projection (its concrete Python class and wording depend on the installed
cartopy/pyproj, so it is kept distinct from the built-in exception types). -/
inductive PyErr where
  | valueError (msg : String)
  | typeError (msg : String)
  | indexError (msg : String)
  | projError (msg : String)
deriving DecidableEq

/-- Warnings emitted through `warnings.warn(..., RTMWarning)`.
`stackLenOne` is the warning of `plot_time_slice` line 59; `multipleMaxima n`
is the warning of `plot_stack_peak` lines 489-490, carrying the number `n`
that the message interpolates. -/
inductive Warn where
  | stackLenOne
  | multipleMaxima (n : ℕ)
deriving DecidableEq

/-- A Python number as accepted for the `xy_grid` option (docstring: int,
float, or None; `None` is modelled by wrapping in `Option`). -/
inductive PyNum where
  | int (n : ℤ)
  | float (q : ℚ)
deriving DecidableEq

/-- Python truthiness of a number: `0` and `0.0` are falsy. Used to model the
`if xy_grid:` test of `plot_time_slice` line 115. -/
def PyNum.truthy : PyNum → Bool
  | .int n => decide (n ≠ 0)
  | .float q => decide (q ≠ 0)

/-- Numeric value of a Python number. -/
def PyNum.toRat : PyNum → ℚ
  | .int n => (n : ℚ)
  | .float q => q

/-- Python string formatting with format code d, as used by the f-string of
`plot_time_slice` line 121.  `format(x, ...)` with code d succeeds for an int
and raises `ValueError` for a float (including integral floats such as 500.0). -/
def PyNum.formatD : PyNum → Except PyErr Unit
  | .int _ => .ok ()
  | .float _ => .error (.valueError "Unknown format code d for object of type float")

/-- Boolean test that an `Except` is `ok` (used to state that a call returned a figure
rather than raising). -/
def exceptOk {ε α : Type} : Except ε α → Bool
  | .ok _ => true
  | .error _ => false

instance instDecEqExcept {ε α : Type} [DecidableEq ε] [DecidableEq α] :
    DecidableEq (Except ε α) := fun x y =>
  match x, y with
  | .ok a, .ok b =>
    if h : a = b then .isTrue (by rw [h]) else
      .isFalse (by intro hh; exact h (Except.ok.inj hh))
  | .error a, .error b =>
    if h : a = b then .isTrue (by rw [h]) else
      .isFalse (by intro hh; exact h (Except.error.inj hh))
  | .ok _, .error _ => .isFalse (by intro hh; exact Except.noConfusion hh)
  | .error _, .ok _ => .isFalse (by intro hh; exact Except.noConfusion hh)

/-- Absolute value on ℚ, written so that it evaluates by kernel reduction
(equal to `|q|`, see `ratAbs_eq_abs` below). -/
def ratAbs (q : ℚ) : ℚ := if q < 0 then -q else q

/-- numpy `max` over a (nonempty) array, modelled on lists; numpy raises on an
empty array, the `0` default is never exercised by the source paths we model
(theorems carry nonemptiness hypotheses where it matters). -/
def npMax : List ℚ → ℚ
  | [] => 0
  | a :: l => l.foldl max a

/-- numpy `min` over a (nonempty) array, modelled on lists. -/
def npMin : List ℚ → ℚ
  | [] => 0
  | a :: l => l.foldl min a

/-- numpy `arange(start, stop, step)` for a positive step: the values
`start + k * step` for `0 ≤ k < ⌈(stop - start) / step⌉`. -/
def npArange (start stop step : ℚ) : List ℚ :=
  (List.range (⌈(stop - start) / step⌉).toNat).map fun k : ℕ => start + (k : ℚ) * step

/-- Model of `obspy.Trace.max()`: the value of the sample of largest absolute value,
keeping its sign (obspy returns `data.max()` unless `abs(data.min())` is
strictly larger, in which case it returns `data.min()`). -/
def obspyTraceMax (d : List ℚ) : ℚ :=
  let v := npMax d
  let m := npMin d
  if ratAbs m > ratAbs v then m else v

/-- An obspy `Trace`: sample data plus the stats metadata fields that the
plotting module reads or writes. -/
structure PTrace where
  network : String
  station : String
  channel : String
  latitude : ℚ
  longitude : ℚ
  data : List ℚ
deriving DecidableEq

/-! ## `plot_st` (lines 385-457)

Modelled for calls with `filt=None` and `remove_response=False`: under those
arguments the source applies no transformation to the copied stream before
the scaling loop (the `remove_sensitivity`/`detrend`/`taper`/`filter` calls
at lines 409-419 are all inside falsy `if` guards), so the per-panel y-limit
logic of lines 421-432 acts on the input sample data directly.

The function returns the list of per-panel `(bottom, top)` y-limits.
Degenerate collections raise before any limit is set: an empty stream fails
at `st_plot[0].times(...)` (line 407, `IndexError`), and a single-trace
stream fails at `ax[i]` (line 427): `plt.subplots(nrows=1)` returns a lone
`Axes` object, which is not subscriptable (`TypeError`). -/

def plot_st (st : List PTrace) (equal_scale : Bool) : Except PyErr (List (ℚ × ℚ)) :=
  match st with
  | [] => .error (.indexError "Stream object is empty")
  | [_] => .error (.typeError "Axes object is not subscriptable")
  | _ =>
    -- line 422: ym = np.max(st_plot.max()); Stream.max() is the list of
    -- per-trace obspy Trace.max() values
    let ym := npMax (st.map fun tr => obspyTraceMax tr.data)
    -- lines 429-432: set_ylim(-ym, ym) when equal_scale, otherwise
    -- set_ylim(-tr.data.max(), tr.data.max())
    .ok (st.map fun tr =>
      if equal_scale then (-ym, ym) else (-(npMax tr.data), npMax tr.data))

/-- Spec wording (for claim C1): the maximum absolute sample value of a single
trace. -/
def specTraceMaxAbs (d : List ℚ) : ℚ := npMax (d.map fun v => ratAbs v)

/-- Spec wording (for claim C1): the maximum absolute sample value over all
traces of a collection. -/
def specCollectionMaxAbs (st : List PTrace) : ℚ :=
  npMax (st.map fun tr => specTraceMaxAbs tr.data)

/-! ## `plot_record_section` (lines 275-382) -/

/-- The `plot_celerity` argument: `None`, the string `range`, a single
number, or a Python list of numbers. -/
inductive CelerityArg where
  | noneArg
  | range
  | single (c : ℚ)
  | list (l : List ℚ)
deriving DecidableEq

/-- Python truthiness of the `plot_celerity` argument, modelling the
`if plot_celerity:` test of line 326 (`None`, `0`, `0.0` and the empty list
are falsy; the nonempty string `range` is truthy). -/
def celTruthy : CelerityArg → Bool
  | .noneArg => false
  | .range => true
  | .single c => decide (c ≠ 0)
  | .list l => !l.isEmpty

/-- The celerity list assembled at lines 329-343: `np.arange(220, 350 + 0.5,
0.5)` for the string `range`; otherwise the user values, wrapped in a
singleton list when a bare number was given, and sorted ascending in place
(`celerity_list.sort()`; Python `list.sort` is a stable ascending sort,
modelled by `List.insertionSort`). -/
def celerityList : CelerityArg → List ℚ
  | .noneArg => []
  | .range => npArange 220 (350 + 1/2) (1/2)
  | .single c => [c]
  | .list l => List.insertionSort (· ≤ ·) l

/-- Caller-visible outputs of `plot_record_section`. Lines in the record
section are recorded by their slope in axis units (km of distance per second
of time): line 354 plots `xlim * celerity / 1000` against `xlim`, so the
drawn slope is `celerity / 1000`. -/
structure RecSec where
  /-- Values `tr.stats.distance` assigned at lines 302-304, in trace order. -/
  distances : List ℚ
  /-- y-positions (data units, km) of the per-trace text labels, lines 317-321. -/
  labelYs : List ℚ
  /-- slopes (km/s) of the celerity reference lines, in draw order (line 353). -/
  lineSlopes : List ℚ
  /-- legend entries keyed by celerity value, draw order (lines 354, 369). -/
  legendValues : Option (List ℚ)
  /-- whether a colorbar was added instead of a legend (lines 360-365). -/
  colorbar : Bool
  /-- the caller's `plot_celerity` object after the call (line 343 sorts a
  caller-supplied list in place; rebinding a bare number at line 340 does not
  affect the caller). -/
  celerityAfter : CelerityArg
  /-- the caller's stream after the call (line 299 copies before mutating). -/
  stAfter : List PTrace
deriving DecidableEq

/-- Model of `plot_record_section`.  The geodesic distance function
`obspy.geodetics.gps2dist_azimuth` is an external collaborator: it is passed
in as `gdist`, called exactly as at lines 302-304 with
`(source_lat, source_lon, trace_lat, trace_lon)` and returning meters.
`origin_time` only shifts the trimmed waveforms (line 306) and the x-axis
label; it affects none of the recorded outputs. -/
def plot_record_section (gdist : ℚ → ℚ → ℚ → ℚ → ℚ) (st : List PTrace)
    (origin_time : ℚ) (source_location : ℚ × ℚ) (plot_celerity : CelerityArg)
    (label_waveforms : Bool) : RecSec :=
  let _ := origin_time
  let dists := st.map fun tr => gdist source_location.1 source_location.2 tr.latitude tr.longitude
  { distances := dists
    labelYs := if label_waveforms then dists.map (fun d => d / 1000) else []
    lineSlopes :=
      if celTruthy plot_celerity then (celerityList plot_celerity).map (fun c => c / 1000) else []
    legendValues :=
      if celTruthy plot_celerity then
        match plot_celerity with
        | .range => none
        | c => some (celerityList c)
      else none
    colorbar := celTruthy plot_celerity &&
      (match plot_celerity with | .range => true | _ => false)
    celerityAfter :=
      match plot_celerity with
      | .list l => if celTruthy (.list l) then .list (List.insertionSort (· ≤ ·) l) else .list l
      | c => c
    stAfter := st }

/-! ## The stack function `S` and `plot_stack_peak` (lines 460-505)

`S` is an `xarray.DataArray` indexed `[time][y][x]`, carrying the attributes
that `plot_time_slice` reads (`grid_center`, `UTM`, `x_radius`, `y_radius`,
optional `celerity`).  Cell values are `Val` (NaN-able).  Coordinate vectors
and the data buffer are modelled as functions on ℕ; only indices below the
recorded dimension lengths are ever consulted. -/

structure Stack where
  nt : ℕ
  ny : ℕ
  nx : ℕ
  times : ℕ → ℚ
  ycoords : ℕ → ℚ
  xcoords : ℕ → ℚ
  val : ℕ → ℕ → ℕ → Val
  gridCenter : ℚ × ℚ
  UTM : Bool
  x_radius : ℚ
  y_radius : ℚ
  celerity : Option ℚ

/-- All non-NaN values of the stack, row-major order. -/
def allVals (S : Stack) : List ℚ :=
  (List.range S.nt).flatMap fun t =>
    (List.range S.ny).flatMap fun y =>
      (List.range S.nx).filterMap fun x => S.val t y x

/-- Model of `S.max()` (xarray reduces with skipna=True): the largest non-NaN value,
or NaN (`none`) when there is none. -/
def maxVal (S : Stack) : Val :=
  match allVals S with
  | [] => none
  | a :: l => some (l.foldl max a)

/-- Whether cell `(t, y, x)` attains the global maximum (`S == S.max()`;
NaN compares unequal to everything, so NaN cells never qualify). -/
def isMaxB (S : Stack) (t y x : ℕ) : Bool :=
  (S.val t y x).isSome && decide (S.val t y x = maxVal S)

/-- All `(t, y, x)` triples attaining the global maximum, in natural
(row-major, i.e. lexicographic) array order. -/
def ties (S : Stack) : List (ℕ × ℕ × ℕ) :=
  (List.range S.nt).flatMap fun t =>
    (List.range S.ny).flatMap fun y =>
      ((List.range S.nx).filter fun x => isMaxB S t y x).map fun x => (t, y, x)

/-- Time indices kept by `S.where(S == S.max(), drop=True)`: a time plane is
kept iff it contains a maximum (xarray drops coordinates whose whole slab
became NaN). -/
def keptT (S : Stack) : List ℕ :=
  (List.range S.nt).filter fun t =>
    (List.range S.ny).any fun y => (List.range S.nx).any fun x => isMaxB S t y x

/-- y indices kept by the `where(..., drop=True)` bounding box. -/
def keptY (S : Stack) : List ℕ :=
  (List.range S.ny).filter fun y =>
    (List.range S.nt).any fun t => (List.range S.nx).any fun x => isMaxB S t y x

/-- x indices kept by the `where(..., drop=True)` bounding box. -/
def keptX (S : Stack) : List ℕ :=
  (List.range S.nx).filter fun x =>
    (List.range S.nt).any fun t => (List.range S.ny).any fun y => isMaxB S t y x

/-- Model of `stack_maximum.size` (line 484): the number of cells of the dropped
bounding box (squeezing does not change the cell count). -/
def stackMaximumSize (S : Stack) : ℕ :=
  (keptT S).length * ((keptY S).length * (keptX S).length)

/-- Model of `len(stack_maximum.data)` (line 489): the length of the FIRST axis of the
squeezed bounding-box array, i.e. the first bounding-box dimension of size
different from 1 (`squeeze` removes all size-1 axes; `len` of a numpy array
is the size of its leading axis).  This is what the warning message reports;
it is NOT in general the number of tied maxima. -/
def lenData (S : Stack) : ℕ :=
  (([(keptT S).length, (keptY S).length, (keptX S).length]).filter
    fun d => decide (d ≠ 1)).headD 1

/-- The maxima of the bounding box enumerated in the row-major order of the
squeezed array, as positions of the original array.  `np.argwhere(~isnan(...))`
(line 485) lists the non-NaN cells of the squeezed array in row-major order;
squeezing removes only size-1 axes and therefore preserves that order, and
the non-NaN cells of the box are exactly the tied maxima. -/
def boxTies (S : Stack) : List (ℕ × ℕ × ℕ) :=
  (keptT S).flatMap fun t =>
    (keptY S).flatMap fun y =>
      ((keptX S).filter fun x => isMaxB S t y x).map fun x => (t, y, x)

/-- Caller-visible outputs of `plot_stack_peak`: the scatter markers placed
for the maximum (as `(time coordinate, value)` pairs) and the warnings
emitted.  The function performs no mutation of `S` (it only reads: `S.max`,
`S.where(..., drop=True)` and `squeeze` all build new arrays). -/
structure StackPeakOut where
  markers : List (ℚ × ℚ)
  warns : List Warn
deriving DecidableEq

/-- Model of `plot_stack_peak` (lines 460-505), restricted to the caller-visible
outputs above.  With `plot_max=True` it selects `stack_maximum =
S.where(S == S.max(), drop=True).squeeze()`; if its size exceeds 1 it scatters
the first non-NaN cell (the first tied maximum) and warns with
`len(stack_maximum.data)`, otherwise it scatters the unique maximum.  The
degenerate all-NaN stack (on which the source would fail inside numpy
indexing) is mapped to the empty output; no claim touches it. -/
def plot_stack_peak (S : Stack) (plot_max : Bool) : StackPeakOut :=
  if plot_max then
    match maxVal S with
    | none => ⟨[], []⟩
    | some M =>
      if 1 < stackMaximumSize S then
        ⟨[(S.times ((boxTies S).headD (0, 0, 0)).1, M)], [.multipleMaxima (lenData S)]⟩
      else
        ⟨[(S.times ((boxTies S).headD (0, 0, 0)).1, M)], []⟩
  else ⟨[], []⟩

/-! ## `plot_time_slice` (lines 17-272) -/

/-- A user-supplied DEM (`rtm.grid.produce_dem` output): a 2-D NaN-able array
over (y, x) with half-extent attributes. -/
structure Dem where
  ny : ℕ
  nx : ℕ
  ycoords : ℕ → ℚ
  xcoords : ℕ → ℚ
  val : ℕ → ℕ → Val
  x_radius : ℚ
  y_radius : ℚ

/-- First index in `[0, n)` minimizing `f` (ties keep the earlier index).
Models the index arithmetic behind `xarray.sel(..., method=nearest)`: the
returned index always achieves the minimal distance, which is all the claims
rely on. -/
def argminIdx (n : ℕ) (f : ℕ → ℚ) : ℕ :=
  (List.range n).foldl (fun best i => if f i < f best then i else best) 0

/-- Smallest y (latitude, for geographic grids) coordinate of the stack:
`S.y.values.min()` at line 88. -/
def tsYmin (S : Stack) : ℚ := npMin ((List.range S.ny).map S.ycoords)

/-- Largest y (latitude, for geographic grids) coordinate of the stack:
`S.y.values.max()` at line 89. -/
def tsYmax (S : Stack) : ℚ := npMax ((List.range S.ny).map S.ycoords)

/-- Whether every DEM cell is NaN (then `dem.min()`/`dem.max()` are NaN,
since xarray reduces with skipna=True). -/
def demAllNaN (d : Dem) : Bool :=
  (List.range d.ny).all fun y => (List.range d.nx).all fun x => (d.val y x).isNone

/-- A DEM the contour block of lines 152-170 can draw without raising: it has
some non-NaN value (line 154 `np.arange(np.ceil(dem.min().data / ...), ...)`
raises `ValueError` on the NaN bounds of an all-NaN DEM) and is at least
2 by 2 (line 165 `dem.plot.contour` raises `TypeError: Input z must be at
least a 2x2 array.` otherwise).  `None` (no DEM) skips the block entirely. -/
def demDrawable : Option Dem → Prop
  | none => True
  | some d => demAllNaN d = false ∧ 2 ≤ d.ny ∧ 2 ≤ d.nx

/-- Modelled from the spec: `get_peak_coordinates` lives in `rtm/stack.py`,
which is not under `src/`; per the spec it is the "Peak-coordinate lookup:
given the stack function and a coordinate-system flag, returns (time, y, x)
of the global maximum plus auxiliary peak metadata", the global maximum being
"a single (time, y, x) triple identifying the stack function's global
maximum".  We take the first triple in natural array order attaining the
maximum.  When `unproject` is requested (projected grids), the spatial
coordinates are converted to (latitude, longitude) by the inverse projection,
which is an external geodesy call and enters the model as the `unprojXY`
parameter of `plot_time_slice`. -/
def peakIdx (S : Stack) : ℕ × ℕ × ℕ := (ties S).headD (0, 0, 0)

/-- The figure data of `plot_time_slice` that the claims talk about. -/
structure TimeSliceFig where
  /-- whether the peak-over-time subplot is present (lines 93-100, 267-268). -/
  peakSubplot : Bool
  /-- Limits `ax.set_xlim` as set at line 258, if set. -/
  xlim : Option (ℚ × ℚ)
  /-- Limits `ax.set_ylim` as set at line 259, if set. -/
  ylim : Option (ℚ × ℚ)
  /-- scatter position of the grid-center marker (line 205). -/
  gridCenterMarker : ℚ × ℚ
  /-- scatter position of the stack-maximum marker (line 216). -/
  maxMarker : ℚ × ℚ
  /-- scatter positions of the station markers (line 222), trace order. -/
  stationMarkers : List (ℚ × ℚ)
  /-- index (into the time axis of `S`) of the displayed slice (line 112). -/
  sliceIdx : ℕ
  /-- time coordinate of the displayed slice. -/
  sliceTime : ℚ
deriving DecidableEq

/-- The caller-visible outcome of a `plot_time_slice` call: warnings emitted,
the returned figure or the exception raised, and the post-call state of the
two caller-owned inputs (`S` and `processed_st`). -/
structure TimeSliceOut where
  warns : List Warn
  result : Except PyErr TimeSliceFig
  S_after : Stack
  st_after : List PTrace

/-- Common tail of `plot_time_slice` (lines 144-272) once the optional
recentring has been resolved.  `shift` is `some (x0, y0)` when the `xy_grid`
branch ran (lines 124-142) and `none` otherwise; `window` is the crop window
for lines 257-259.  `st1` is the working copy of the stream (already
projected when `S.UTM`); `origSt` is the caller's stream, returned unchanged
because line 61 copied it.

With a DEM, the contour block of lines 152-170 runs BEFORE the masking and
raises for degenerate DEMs: line 154 computes
`np.arange(np.ceil(dem.min().data / cont_int), ...)`, which raises
`ValueError` when the DEM is all-NaN (NaN bounds cannot be converted to an
integer length), and line 165 `dem.plot.contour` raises `TypeError` for a
DEM smaller than 2 by 2; in both cases the call aborts with the caller's
objects untouched.  (Other contour-level pathologies only change what is
drawn; they are not modelled.)

Mutation of `S` (lines 175-178), reached only for a drawable DEM:
`slice = S.sel(time=..., method=nearest)` selects with a scalar index, so
`slice.data` is a numpy view of the `ti`-th time plane of the caller's
buffer, and `assign_coords` (lines 126-127) keeps that buffer shared; the
masking write `slice.data[np.isnan(dem_slice.data)] = np.nan` therefore
lands in the caller's `S`.  `dem_slice = dem.sel(x=slice.x, y=slice.y,
method=nearest)` matches each (possibly recentred) slice coordinate to the
nearest (possibly recentred) DEM coordinate, per axis. -/
def tsFinish (S : Stack) (ti : ℕ) (baseWarns : List Warn) (plotPeak : Bool)
    (dem : Option Dem) (shift : Option (ℚ × ℚ)) (window : Option ℚ)
    (lon0 lat0 xmax1 ymax1 : ℚ) (st1 : List PTrace) (origSt : List PTrace) :
    TimeSliceOut :=
  let dx := (shift.getD (0, 0)).1
  let dy := (shift.getD (0, 0)).2
  let fig : TimeSliceFig :=
    { peakSubplot := plotPeak
      xlim := window.map fun w => (-w, w)
      ylim := window.map fun w => (-w, w)
      gridCenterMarker := (lon0 - dx, lat0 - dy)
      maxMarker := (xmax1 - dx, ymax1 - dy)
      stationMarkers := st1.map fun tr => (tr.longitude - dx, tr.latitude - dy)
      sliceIdx := ti
      sliceTime := S.times ti }
  let warnsOut := baseWarns ++ (if plotPeak then (plot_stack_peak S true).warns else [])
  match dem with
  | none =>
    { warns := warnsOut, result := .ok fig, S_after := S, st_after := origSt }
  | some d =>
    if demAllNaN d then
      -- line 154: np.arange on the NaN bounds of an all-NaN DEM
      { warns := baseWarns,
        result := .error (.valueError "cannot convert float NaN to integer"),
        S_after := S, st_after := origSt }
    else if d.ny < 2 ∨ d.nx < 2 then
      -- line 165: contour requires at least a 2x2 array
      { warns := baseWarns,
        result := .error (.typeError "Input z must be at least a 2x2 array."),
        S_after := S, st_after := origSt }
    else
      let d1 : Dem :=
        match shift with
        | none => d
        | some _ =>
          -- lines 130-134: the DEM is recentred about its own center
          let x0d := npMin ((List.range d.nx).map d.xcoords) + d.x_radius
          let y0d := npMin ((List.range d.ny).map d.ycoords) + d.y_radius
          { d with xcoords := fun i => d.xcoords i - x0d,
                   ycoords := fun i => d.ycoords i - y0d }
      let S_after : Stack :=
        { S with val := fun t y x =>
            if t = ti ∧
               d1.val (argminIdx d1.ny fun j => ratAbs (d1.ycoords j - (S.ycoords y - dy)))
                      (argminIdx d1.nx fun j => ratAbs (d1.xcoords j - (S.xcoords x - dx))) = none
            then none else S.val t y x }
      { warns := warnsOut, result := .ok fig, S_after := S_after, st_after := origSt }

/-- Lines 56-59: whether the peak subplot remains enabled (it is forced off
when the stack has a single time sample). -/
def tsPlotPeak (S : Stack) (plot_peak : Bool) : Bool :=
  if plot_peak && decide (S.nt = 1) then false else plot_peak

/-- Lines 56-59: the warning emitted when `plot_peak` was requested on a
single-time-sample stack. -/
def tsBaseWarns (S : Stack) (plot_peak : Bool) : List Warn :=
  if plot_peak && decide (S.nt = 1) then [.stackLenOne] else []

/-- Lines 63-64 and 79: `(y_max, x_max)` as returned by the peak lookup;
unprojected to (latitude, longitude) through the external `unprojXY` when the
grid is projected (spec-modelled, see `peakIdx`). -/
def tsYX0 (unprojXY : ℚ × ℚ → ℚ × ℚ) (S : Stack) : ℚ × ℚ :=
  if S.UTM then unprojXY (S.ycoords (peakIdx S).2.1, S.xcoords (peakIdx S).2.2)
  else (S.ycoords (peakIdx S).2.1, S.xcoords (peakIdx S).2.2)

/-- Lines 67 and 78: `(lon_0, lat_0)`, converted through
`proj.transform(lat, lon)` for projected grids. -/
def tsLonLat0 (proj : ℚ → ℚ → ℚ × ℚ) (S : Stack) : ℚ × ℚ :=
  if S.UTM then proj S.gridCenter.2 S.gridCenter.1 else S.gridCenter

/-- Lines 79 and 216: the `(x_max, y_max)` scatter position of the
stack-maximum marker (before any recentring): `proj.transform(y_max, x_max)`
for projected grids, `(x_max, y_max)` as returned otherwise. -/
def tsXYMax (proj : ℚ → ℚ → ℚ × ℚ) (unprojXY : ℚ × ℚ → ℚ × ℚ) (S : Stack) : ℚ × ℚ :=
  if S.UTM then proj (tsYX0 unprojXY S).1 (tsYX0 unprojXY S).2
  else ((tsYX0 unprojXY S).2, (tsYX0 unprojXY S).1)

/-- Lines 80-83: the working copy of the stream, with station coordinates
projected in place (on the copy) when the grid is projected. -/
def tsSt1 (proj : ℚ → ℚ → ℚ × ℚ) (S : Stack) (processed_st : List PTrace) : List PTrace :=
  if S.UTM then
    processed_st.map fun tr =>
      { tr with longitude := (proj tr.latitude tr.longitude).1,
                latitude := (proj tr.latitude tr.longitude).2 }
  else processed_st

/-- Lines 106-112: index of the time slice: nearest time to the requested
one, defaulting to the (spec-modelled) global-maximum time. -/
def tsTi (S : Stack) (time_slice : Option ℚ) : ℕ :=
  argminIdx S.nt fun i => ratAbs (S.times i - time_slice.getD (S.times (peakIdx S).1))

/-- Line 124: the x offset of the recentring, `slice.x.data.min() + slice.x_radius`. -/
def tsX0 (S : Stack) : ℚ := npMin ((List.range S.nx).map S.xcoords) + S.x_radius

/-- Line 125: the y offset of the recentring, `slice.y.data.min() + slice.y_radius`. -/
def tsY0 (S : Stack) : ℚ := npMin ((List.range S.ny).map S.ycoords) + S.y_radius

/-- Model of `plot_time_slice` (lines 17-272).  Parameters for the external
collaborators: `proj lat lon` is the forward transform of the projection
returned by `_proj_from_grid(S)` (not under `src/`; per the spec a "forward
transform from geographic to planar coordinates"), called exactly as at
lines 78-83; `unprojXY` is the unprojection applied by
`get_peak_coordinates(..., unproject=True)` to the coordinates of the maximum
cell, returning `(latitude, longitude)` — see `peakIdx`.  The rendering-only
options `label_stations`, `hires`, `cont_int` and `annot_int` influence
neither the warnings, the errors, the marker positions, the axis limits nor
the mutation of `S`, and are omitted.  The recentring block (lines 114-142)
is guarded by Python truthiness: `None`, `0` and `0.0` all skip it.

For geographic grids, lines 86-89 construct
`ccrs.AlbersEqualArea(..., standard_parallels=(S.y.values.min(),
S.y.values.max()))` BEFORE the figure and the `xy_grid` check.  PROJ rejects
an aea projection with `lat_1 = -lat_2` (the cone constant
`(sin lat_1 + sin lat_2) / 2` vanishes), so the construction raises whenever
the stack's latitude extremes are opposite (`ymin + ymax = 0`, e.g. both 0
or symmetric about the equator), and the call aborts with only the line-59
warning emitted and the caller's objects untouched. -/
def plot_time_slice (proj : ℚ → ℚ → ℚ × ℚ) (unprojXY : ℚ × ℚ → ℚ × ℚ)
    (S : Stack) (processed_st : List PTrace) (time_slice : Option ℚ)
    (dem : Option Dem) (plot_peak : Bool) (xy_grid : Option PyNum) :
    TimeSliceOut :=
  if !S.UTM && decide (tsYmin S + tsYmax S = 0) then
    -- lines 86-89: the AlbersEqualArea construction raises for opposite
    -- standard parallels
    { warns := tsBaseWarns S plot_peak
      result := .error (.projError "Invalid value for lat_1 and lat_2: lat_1 should be different from -lat_2")
      S_after := S, st_after := processed_st }
  else
  match xy_grid with
  | some w =>
    if w.truthy then
      if !S.UTM then
        -- lines 118-119
        { warns := tsBaseWarns S plot_peak
          result := .error (.valueError "xy_grid can only be used with projected grids!")
          S_after := S, st_after := processed_st }
      else
        match w.formatD with
        | .error e =>
          -- line 121: the f-string formats xy_grid with format code d, which
          -- raises ValueError when a float was passed
          { warns := tsBaseWarns S plot_peak, result := .error e,
            S_after := S, st_after := processed_st }
        | .ok _ =>
          tsFinish S (tsTi S time_slice) (tsBaseWarns S plot_peak)
            (tsPlotPeak S plot_peak) dem (some (tsX0 S, tsY0 S)) (some w.toRat)
            (tsLonLat0 proj S).1 (tsLonLat0 proj S).2
            (tsXYMax proj unprojXY S).1 (tsXYMax proj unprojXY S).2
            (tsSt1 proj S processed_st) processed_st
    else
      tsFinish S (tsTi S time_slice) (tsBaseWarns S plot_peak)
        (tsPlotPeak S plot_peak) dem none none
        (tsLonLat0 proj S).1 (tsLonLat0 proj S).2
        (tsXYMax proj unprojXY S).1 (tsXYMax proj unprojXY S).2
        (tsSt1 proj S processed_st) processed_st
  | none =>
    tsFinish S (tsTi S time_slice) (tsBaseWarns S plot_peak)
      (tsPlotPeak S plot_peak) dem none none
      (tsLonLat0 proj S).1 (tsLonLat0 proj S).2
      (tsXYMax proj unprojXY S).1 (tsXYMax proj unprojXY S).2
      (tsSt1 proj S processed_st) processed_st

/-! ## Concrete inputs used by counterexamples and witnesses -/

/-- A trace whose largest-magnitude sample is negative. -/
def trNeg : PTrace := ⟨"NT", "ST1", "BDF", 0, 0, [-5, 3]⟩

/-- A trace with small positive maximum. -/
def trPos : PTrace := ⟨"NT", "ST2", "BDF", 0, 0, [2, -1]⟩

/-- A 1*2*2 stack whose maximum 1 is attained at the three cells (0,0,0),
(0,0,1), (0,1,0): the bounding box of the ties is the whole 2*2 plane, so
`len(stack_maximum.data)` is 2 while there are 3 tied maxima. -/
def S0 : Stack :=
  { nt := 1, ny := 2, nx := 2
    times := fun _ => 0
    ycoords := fun i => i
    xcoords := fun i => i
    val := fun _ y x => if y = 1 ∧ x = 1 then some 0 else some 1
    gridCenter := (0, 0)
    UTM := false
    x_radius := 0, y_radius := 0
    celerity := none }

/-- A minimal geographic-grid (UTM false) stack with a single time sample.
Its latitudes are all 0, so the real `plot_time_slice` raises at the
AlbersEqualArea construction (line 86) — after the line-59 warning and
before everything else — which the model mirrors. -/
def Sgeo : Stack :=
  { nt := 1, ny := 1, nx := 1
    times := fun _ => 0, ycoords := fun _ => 0, xcoords := fun _ => 0
    val := fun _ _ _ => some 1
    gridCenter := (0, 0), UTM := false
    x_radius := 0, y_radius := 0, celerity := none }

/-- A geographic-grid stack away from the equator (latitudes 10-11, so the
AlbersEqualArea construction of line 86 succeeds), 1 time sample, 2 by 2
spatial cells. -/
def SgeoC2 : Stack :=
  { nt := 1, ny := 2, nx := 2
    times := fun _ => 0
    ycoords := fun i => if i = 0 then 10 else 11
    xcoords := fun i => if i = 0 then 20 else 21
    val := fun _ y x => if y = 0 ∧ x = 0 then some 1 else some 2
    gridCenter := (20, 10)
    UTM := false
    x_radius := 0, y_radius := 0
    celerity := none }

/-- A drawable 2 by 2 DEM on the same coordinates as `SgeoC2` whose cell at
(y=10, x=20) is missing (NaN) and whose other values 50/100 give well-formed
contour levels, so the real contour block completes and the line-178 masking
is reached. -/
def demC : Dem :=
  { ny := 2, nx := 2
    ycoords := fun i => if i = 0 then 10 else 11
    xcoords := fun i => if i = 0 then 20 else 21
    val := fun y x =>
      if y = 0 ∧ x = 0 then none else some (if y = 1 ∧ x = 1 then 100 else 50)
    x_radius := 0, y_radius := 0 }

/-- A concrete stand-in for the external projection (closed statements only
need some fixed function). -/
def projZ : ℚ → ℚ → ℚ × ℚ := fun _ _ => (0, 0)

/-- A small projected-grid (UTM true) stack with two time samples. -/
def Sutm : Stack :=
  { nt := 2, ny := 2, nx := 2
    times := fun i => i
    ycoords := fun i => 10 + i
    xcoords := fun i => 20 + i
    val := fun t y x => some ((t + y + x : ℕ))
    gridCenter := (1, 2), UTM := true
    x_radius := 1, y_radius := 1, celerity := none }

/-- The figure of a `plot_time_slice` outcome, with a dummy value on the
error side (used to phrase closed witnesses). -/
def figOf (o : TimeSliceOut) : TimeSliceFig :=
  match o.result with
  | .ok f => f
  | .error _ => ⟨false, none, none, (0, 0), (0, 0), [], 0, 0⟩

/-! ## General helper lemmas -/

theorem ratAbs_eq_abs (q : ℚ) : ratAbs q = |q| := by
  unfold ratAbs
  split
  · exact (abs_of_neg (by assumption)).symm
  · exact (abs_of_nonneg (not_lt.mp (by assumption))).symm

theorem argminFold_mem_or_eq (f : ℕ → ℚ) (l : List ℕ) (b : ℕ) :
    l.foldl (fun best i => if f i < f best then i else best) b = b ∨
      l.foldl (fun best i => if f i < f best then i else best) b ∈ l := by
  induction l generalizing b with
  | nil => exact Or.inl rfl
  | cons a l ih =>
    rw [List.foldl_cons]
    rcases ih (if f a < f b then a else b) with h | h
    · rw [h]
      split
      · exact Or.inr (List.mem_cons_self a l)
      · exact Or.inl rfl
    · exact Or.inr (List.mem_cons_of_mem a h)

theorem argminFold_le_init (f : ℕ → ℚ) (l : List ℕ) (b : ℕ) :
    f (l.foldl (fun best i => if f i < f best then i else best) b) ≤ f b := by
  induction l generalizing b with
  | nil => exact le_refl _
  | cons a l ih =>
    rw [List.foldl_cons]
    refine le_trans (ih _) ?_
    split
    · exact le_of_lt (by assumption)
    · exact le_refl _

theorem argminFold_le_mem (f : ℕ → ℚ) (l : List ℕ) (b : ℕ) :
    ∀ j ∈ l, f (l.foldl (fun best i => if f i < f best then i else best) b) ≤ f j := by
  induction l generalizing b with
  | nil => intro j hj; exact absurd hj (List.not_mem_nil j)
  | cons a l ih =>
    intro j hj
    rw [List.foldl_cons]
    rcases List.mem_cons.mp hj with h | h
    · subst h
      refine le_trans (argminFold_le_init f l _) ?_
      split
      · exact le_refl _
      · exact not_lt.mp (by assumption)
    · exact ih _ j h

theorem argminIdx_lt (n : ℕ) (f : ℕ → ℚ) (hn : 0 < n) : argminIdx n f < n := by
  unfold argminIdx
  rcases argminFold_mem_or_eq f (List.range n) 0 with h | h
  · rw [h]; exact hn
  · exact List.mem_range.mp h

theorem argminIdx_min (n : ℕ) (f : ℕ → ℚ) : ∀ j < n, f (argminIdx n f) ≤ f j := by
  intro j hj
  exact argminFold_le_mem f (List.range n) 0 j (List.mem_range.mpr hj)

theorem flatMap_congr_mem {α β : Type} {l : List α} {f g : α → List β}
    (h : ∀ a ∈ l, f a = g a) : l.flatMap f = l.flatMap g := by
  induction l with
  | nil => rfl
  | cons a l ih =>
    rw [List.flatMap_cons, List.flatMap_cons, h a (List.mem_cons_self a l),
      ih fun b hb => h b (List.mem_cons_of_mem a hb)]

theorem filter_flatMap_eq {α β : Type} (l : List α) (p : α → Bool) (g : α → List β)
    (h : ∀ a ∈ l, p a = false → g a = []) : (l.filter p).flatMap g = l.flatMap g := by
  induction l with
  | nil => rfl
  | cons a l ih =>
    rw [List.filter_cons]
    have ihl := ih fun b hb hpb => h b (List.mem_cons_of_mem a hb) hpb
    by_cases hpa : p a = true
    · rw [if_pos hpa, List.flatMap_cons, List.flatMap_cons, ihl]
    · have hpa' : p a = false := Bool.eq_false_iff.mpr hpa
      rw [if_neg (by rw [hpa']; exact Bool.false_ne_true), List.flatMap_cons,
        h a (List.mem_cons_self a l) hpa', List.nil_append, ihl]

theorem flatMap_sublist {α β : Type} (l : List α) (f g : α → List β)
    (h : ∀ a ∈ l, (f a).Sublist (g a)) : (l.flatMap f).Sublist (l.flatMap g) := by
  induction l with
  | nil => exact List.Sublist.refl _
  | cons a l ih =>
    rw [List.flatMap_cons, List.flatMap_cons]
    exact List.Sublist.append (h a (List.mem_cons_self a l))
      (ih fun b hb => h b (List.mem_cons_of_mem a hb))

theorem sum_map_const {α : Type} (l : List α) (c : ℕ) :
    (l.map fun _ => c).sum = l.length * c := by
  induction l with
  | nil => simp
  | cons a l ih => simp [ih, Nat.succ_mul, Nat.add_comm]

/-! ## Lemmas about the tied-maxima bounding box (`plot_stack_peak`) -/

theorem mem_ties_isMaxB (S : Stack) (p : ℕ × ℕ × ℕ) (hp : p ∈ ties S) :
    isMaxB S p.1 p.2.1 p.2.2 = true := by
  unfold ties at hp
  rcases List.mem_flatMap.mp hp with ⟨t, _, hp2⟩
  rcases List.mem_flatMap.mp hp2 with ⟨y, _, hp3⟩
  rcases List.mem_map.mp hp3 with ⟨x, hxmem, hxe⟩
  rcases List.mem_filter.mp hxmem with ⟨_, hmax⟩
  rw [← hxe]
  exact hmax

/-- The bounding-box enumeration of the maxima coincides with the natural
row-major enumeration: every tied maximum has its coordinates in the kept
index lists, so filtering the kept products by `isMaxB` loses nothing. -/
theorem boxTies_eq_ties (S : Stack) : boxTies S = ties S := by
  have hx : ∀ t, t < S.nt → ∀ y, y < S.ny →
      ((keptX S).filter fun x => isMaxB S t y x) =
        ((List.range S.nx).filter fun x => isMaxB S t y x) := by
    intro t ht y hy
    unfold keptX
    rw [List.filter_filter]
    refine List.filter_congr ?_
    intro x _
    cases hmax : isMaxB S t y x
    · simp
    · simp only [Bool.true_and]
      exact List.any_eq_true.mpr ⟨t, List.mem_range.mpr ht,
        List.any_eq_true.mpr ⟨y, List.mem_range.mpr hy, hmax⟩⟩
  unfold boxTies ties
  calc
    (keptT S).flatMap (fun t => (keptY S).flatMap fun y =>
        ((keptX S).filter fun x => isMaxB S t y x).map fun x => (t, y, x))
      = (keptT S).flatMap (fun t => (List.range S.ny).flatMap fun y =>
          ((List.range S.nx).filter fun x => isMaxB S t y x).map fun x => (t, y, x)) := by
        refine flatMap_congr_mem ?_
        intro t htk
        have ht : t < S.nt := List.mem_range.mp (List.mem_filter.mp htk).1
        have h1 : (keptY S).flatMap (fun y =>
              ((keptX S).filter fun x => isMaxB S t y x).map fun x => (t, y, x))
            = (keptY S).flatMap (fun y =>
              ((List.range S.nx).filter fun x => isMaxB S t y x).map fun x => (t, y, x)) := by
          refine flatMap_congr_mem ?_
          intro y hyk
          have hy : y < S.ny := List.mem_range.mp (List.mem_filter.mp hyk).1
          rw [hx t ht y hy]
        rw [h1]
        unfold keptY
        refine filter_flatMap_eq _ _ _ ?_
        intro y _ hpy
        have hnil : ((List.range S.nx).filter fun x => isMaxB S t y x) = [] := by
          refine List.filter_eq_nil_iff.mpr ?_
          intro x hxr hmax
          have hany : ((List.range S.nt).any fun a =>
              (List.range S.nx).any fun x => isMaxB S a y x) = true :=
            List.any_eq_true.mpr ⟨t, List.mem_range.mpr ht,
              List.any_eq_true.mpr ⟨x, hxr, hmax⟩⟩
          rw [hpy] at hany
          exact Bool.false_ne_true hany
        rw [hnil]
        rfl
    _ = (List.range S.nt).flatMap (fun t => (List.range S.ny).flatMap fun y =>
          ((List.range S.nx).filter fun x => isMaxB S t y x).map fun x => (t, y, x)) := by
        unfold keptT
        refine filter_flatMap_eq _ _ _ ?_
        intro t _ hpt
        refine List.flatMap_eq_nil_iff.mpr ?_
        intro y hy
        have hnil : ((List.range S.nx).filter fun x => isMaxB S t y x) = [] := by
          refine List.filter_eq_nil_iff.mpr ?_
          intro x hxr hmax
          have hany : ((List.range S.ny).any fun b =>
              (List.range S.nx).any fun x => isMaxB S t b x) = true :=
            List.any_eq_true.mpr ⟨y, hy, List.any_eq_true.mpr ⟨x, hxr, hmax⟩⟩
          rw [hpt] at hany
          exact Bool.false_ne_true hany
        rw [hnil]
        rfl

/-- There are never more tied maxima than bounding-box cells. -/
theorem ties_length_le_size (S : Stack) : (ties S).length ≤ stackMaximumSize S := by
  rw [← boxTies_eq_ties]
  unfold boxTies stackMaximumSize
  have hsub : ((keptT S).flatMap fun t => (keptY S).flatMap fun y =>
        ((keptX S).filter fun x => isMaxB S t y x).map fun x => (t, y, x)).Sublist
      ((keptT S).flatMap fun t => (keptY S).flatMap fun y =>
        (keptX S).map fun x => (t, y, x)) := by
    refine flatMap_sublist _ _ _ ?_
    intro t _
    refine flatMap_sublist _ _ _ ?_
    intro y _
    exact List.Sublist.map _ (List.filter_sublist _)
  refine le_trans hsub.length_le ?_
  rw [List.length_flatMap]
  have hinner : ∀ t : ℕ, ((keptY S).flatMap fun y =>
      (keptX S).map fun x => (t, y, x)).length = (keptY S).length * (keptX S).length := by
    intro t
    rw [List.length_flatMap]
    have hmc : List.map (List.length ∘ fun y => (keptX S).map fun x => (t, y, x)) (keptY S)
        = (keptY S).map fun _ => (keptX S).length := by
      refine List.map_congr_left ?_
      intro y _
      simp
    rw [hmc, sum_map_const]
  have houter : List.map (List.length ∘ fun t => (keptY S).flatMap fun y =>
        (keptX S).map fun x => (t, y, x)) (keptT S)
      = (keptT S).map fun _ => (keptY S).length * (keptX S).length := by
    refine List.map_congr_left ?_
    intro t _
    simp only [Function.comp_apply]
    exact hinner t
  rw [houter, sum_map_const]

/-! ## Claim C4 -/

/-- C4, counterexample: on the stack `S0`, whose maximum 1 is tied at the
three cells (0,0,0), (0,0,1) and (0,1,0), `plot_stack_peak(plot_max=True)`
marks one point and emits one warning, but the warning reports the number 2
(the leading axis length of the squeezed bounding box) although there are 3
tied maxima — so the warning does not report the count of tied maxima as the
claim states. -/
theorem c4_counterexample :
    plot_stack_peak S0 true =
      { markers := [(0, 1)], warns := [Warn.multipleMaxima 2] } ∧
    (ties S0).length = 3 ∧ (2 : ℕ) ≠ 3 := by
  refine ⟨by decide, by decide, by decide⟩

/-- C4, amended: for every stack whose global maximum is attained at more
than one location, `plot_stack_peak` with `plot_max=True` marks exactly one
point — the first tied location in natural array ordering — and emits exactly
one warning; the number that warning reports is the leading-axis length of
the squeezed bounding box of the tied maxima (`lenData`), not in general the
count of ties. -/
theorem c4_amended (S : Stack) (h2 : 2 ≤ (ties S).length) :
    ∃ p M, (ties S).head? = some p ∧ maxVal S = some M ∧
      plot_stack_peak S true =
        { markers := [(S.times p.1, M)], warns := [Warn.multipleMaxima (lenData S)] } := by
  have hne : ties S ≠ [] := by
    intro h
    rw [h] at h2
    exact absurd h2 (by decide)
  have hp : (ties S).head? = some ((ties S).head hne) := List.head?_eq_head hne
  have hpm : (ties S).head hne ∈ ties S := List.head_mem hne
  have hmax := mem_ties_isMaxB S _ hpm
  unfold isMaxB at hmax
  rcases Bool.and_eq_true_iff.mp hmax with ⟨hsome, hdec⟩
  have heq := of_decide_eq_true hdec
  obtain ⟨M, hM⟩ : ∃ M, maxVal S = some M := by
    rw [← heq]
    exact Option.isSome_iff_exists.mp hsome
  have hsz : 1 < stackMaximumSize S :=
    lt_of_lt_of_le (by decide) (le_trans h2 (ties_length_le_size S))
  refine ⟨(ties S).head hne, M, hp, hM, ?_⟩
  unfold plot_stack_peak
  rw [if_pos rfl, hM]
  dsimp only
  rw [if_pos hsz, boxTies_eq_ties, List.headD_eq_head?, hp]
  rfl

/-- C4, witness for the amended theorem at the concrete stack `S0`. -/
theorem c4_amended_witness :
    2 ≤ (ties S0).length ∧
      (∃ p M, (ties S0).head? = some p ∧ maxVal S0 = some M ∧
        plot_stack_peak S0 true =
          { markers := [(S0.times p.1, M)], warns := [Warn.multipleMaxima (lenData S0)] }) :=
  ⟨by decide, c4_amended S0 (by decide)⟩

/-! ## Structural lemmas about `plot_time_slice` -/

theorem tsFinish_st_after (S : Stack) (ti : ℕ) (bw : List Warn) (pp : Bool)
    (dem : Option Dem) (shift : Option (ℚ × ℚ)) (window : Option ℚ)
    (lon0 lat0 xm ym : ℚ) (st1 origSt : List PTrace) :
    (tsFinish S ti bw pp dem shift window lon0 lat0 xm ym st1 origSt).st_after = origSt := by
  rcases dem with _ | d
  · rfl
  · by_cases h1 : demAllNaN d = true
    · simp [tsFinish, h1]
    · by_cases h2 : d.ny < 2 ∨ d.nx < 2
      · simp [tsFinish, h1, h2]
      · simp [tsFinish, h1, h2]

theorem tsFinish_warns_peak_false (S : Stack) (ti : ℕ) (bw : List Warn) (pp : Bool)
    (dem : Option Dem) (shift : Option (ℚ × ℚ)) (window : Option ℚ)
    (lon0 lat0 xm ym : ℚ) (st1 origSt : List PTrace) (hpp : pp = false) :
    (tsFinish S ti bw pp dem shift window lon0 lat0 xm ym st1 origSt).warns = bw := by
  subst hpp
  rcases dem with _ | d
  · simp [tsFinish]
  · by_cases h1 : demAllNaN d = true
    · simp [tsFinish, h1]
    · by_cases h2 : d.ny < 2 ∨ d.nx < 2
      · simp [tsFinish, h1, h2]
      · simp [tsFinish, h1, h2]

theorem tsFinish_S_after_noDem (S : Stack) (ti : ℕ) (bw : List Warn) (pp : Bool)
    (shift : Option (ℚ × ℚ)) (window : Option ℚ)
    (lon0 lat0 xm ym : ℚ) (st1 origSt : List PTrace) :
    (tsFinish S ti bw pp none shift window lon0 lat0 xm ym st1 origSt).S_after = S := rfl

/-- Whenever `tsFinish` produces a figure, it is the one assembled from the
branch-independent arguments (the error branches produce none). -/
theorem tsFinish_result_ok (S : Stack) (ti : ℕ) (bw : List Warn) (pp : Bool)
    (dem : Option Dem) (shift : Option (ℚ × ℚ)) (window : Option ℚ)
    (lon0 lat0 xm ym : ℚ) (st1 origSt : List PTrace) (f : TimeSliceFig)
    (h : (tsFinish S ti bw pp dem shift window lon0 lat0 xm ym st1 origSt).result = .ok f) :
    f = { peakSubplot := pp
          xlim := window.map fun w => (-w, w)
          ylim := window.map fun w => (-w, w)
          gridCenterMarker := (lon0 - (shift.getD (0, 0)).1, lat0 - (shift.getD (0, 0)).2)
          maxMarker := (xm - (shift.getD (0, 0)).1, ym - (shift.getD (0, 0)).2)
          stationMarkers := st1.map fun tr =>
            (tr.longitude - (shift.getD (0, 0)).1, tr.latitude - (shift.getD (0, 0)).2)
          sliceIdx := ti
          sliceTime := S.times ti } := by
  rcases dem with _ | d
  · exact (Except.ok.inj h).symm
  · unfold tsFinish at h
    dsimp only at h
    by_cases h1 : demAllNaN d = true
    · rw [if_pos h1] at h
      exact absurd h (by simp)
    · rw [if_neg h1] at h
      by_cases h2 : d.ny < 2 ∨ d.nx < 2
      · rw [if_pos h2] at h
        exact absurd h (by simp)
      · rw [if_neg h2] at h
        exact (Except.ok.inj h).symm

/-- For a drawable DEM (or no DEM at all), `tsFinish` produces a figure. -/
theorem tsFinish_result_drawable (S : Stack) (ti : ℕ) (bw : List Warn) (pp : Bool)
    (dem : Option Dem) (shift : Option (ℚ × ℚ)) (window : Option ℚ)
    (lon0 lat0 xm ym : ℚ) (st1 origSt : List PTrace) (hdem : demDrawable dem) :
    (tsFinish S ti bw pp dem shift window lon0 lat0 xm ym st1 origSt).result =
      .ok { peakSubplot := pp
            xlim := window.map fun w => (-w, w)
            ylim := window.map fun w => (-w, w)
            gridCenterMarker := (lon0 - (shift.getD (0, 0)).1, lat0 - (shift.getD (0, 0)).2)
            maxMarker := (xm - (shift.getD (0, 0)).1, ym - (shift.getD (0, 0)).2)
            stationMarkers := st1.map fun tr =>
              (tr.longitude - (shift.getD (0, 0)).1, tr.latitude - (shift.getD (0, 0)).2)
            sliceIdx := ti
            sliceTime := S.times ti } := by
  rcases dem with _ | d
  · rfl
  · obtain ⟨h1, h2, h3⟩ := hdem
    unfold tsFinish
    dsimp only
    rw [if_neg (by simp [h1]), if_neg (by omega)]

/-- Every `plot_time_slice` call either raises (with the caller's objects
untouched) or lands in `tsFinish` with the branch-independent arguments. -/
theorem pts_cases (proj : ℚ → ℚ → ℚ × ℚ) (unprojXY : ℚ × ℚ → ℚ × ℚ) (S : Stack)
    (st : List PTrace) (ts : Option ℚ) (dem : Option Dem) (pp : Bool)
    (xy : Option PyNum) :
    (∃ e, plot_time_slice proj unprojXY S st ts dem pp xy =
      { warns := tsBaseWarns S pp, result := .error e, S_after := S, st_after := st }) ∨
    (∃ shift window, plot_time_slice proj unprojXY S st ts dem pp xy =
      tsFinish S (tsTi S ts) (tsBaseWarns S pp) (tsPlotPeak S pp) dem shift window
        (tsLonLat0 proj S).1 (tsLonLat0 proj S).2
        (tsXYMax proj unprojXY S).1 (tsXYMax proj unprojXY S).2
        (tsSt1 proj S st) st) := by
  by_cases hg : (!S.UTM && decide (tsYmin S + tsYmax S = 0)) = true
  · refine Or.inl ⟨.projError
      "Invalid value for lat_1 and lat_2: lat_1 should be different from -lat_2", ?_⟩
    unfold plot_time_slice
    rw [if_pos hg]
  · unfold plot_time_slice
    rw [if_neg hg]
    rcases xy with _ | w
    · exact Or.inr ⟨none, none, rfl⟩
    · by_cases h : w.truthy = true
      · by_cases hU : S.UTM = true
        · rcases w with n | q
          · exact Or.inr ⟨some (tsX0 S, tsY0 S), some (PyNum.int n).toRat,
              by simp [h, hU, PyNum.formatD]⟩
          · exact Or.inl ⟨.valueError "Unknown format code d for object of type float",
              by simp [h, hU, PyNum.formatD]⟩
        · have hU' : S.UTM = false := Bool.not_eq_true _ ▸ Bool.eq_false_iff.mpr hU
          exact Or.inl ⟨.valueError "xy_grid can only be used with projected grids!",
            by simp [h, hU']⟩
      · exact Or.inr ⟨none, none, by simp [h]⟩

/-! ## Claim C1 -/

/-- C1, counterexample: for the collection with sample data `[-5, 3]` and
`[2, -1]`, the maximum absolute sample value over the collection is 5, yet
with `equal_scale=True` every panel is set to `(-2, 2)` (half-range 2: obspy
`Stream.max()` keeps signs, and `np.max` of `[-5, 2]` is 2), and with
`equal_scale=False` the first panel is set to `(-3, 3)` (the trace's plain
signed maximum), not its maximum absolute value 5. -/
theorem c1_counterexample :
    plot_st [trNeg, trPos] true = .ok [(-2, 2), (-2, 2)] ∧
    specCollectionMaxAbs [trNeg, trPos] = 5 ∧ (2 : ℚ) ≠ 5 ∧
    plot_st [trNeg, trPos] false = .ok [(-3, 3), (-2, 2)] ∧
    specTraceMaxAbs trNeg.data = 5 ∧ (3 : ℚ) ≠ 5 :=
  ⟨by decide, by decide, by decide, by decide, by decide, by decide⟩

/-- C1, amended: for a collection of at least two traces (with fewer the
function raises before scaling), `equal_scale=True` gives every panel the
same y-limits `(-ym, ym)` with `ym` the `np.max` of the per-trace obspy
signed extremes (the sample of largest magnitude, keeping its sign), and
`equal_scale=False` gives panel `i` the y-limits `(-mᵢ, mᵢ)` with `mᵢ` the
plain (signed) maximum sample of trace `i`; neither is in general the
maximum absolute sample value. -/
theorem c1_amended (st : List PTrace) (h : 2 ≤ st.length) :
    plot_st st true =
      .ok (st.map fun _ =>
        (-(npMax (st.map fun tr => obspyTraceMax tr.data)),
          npMax (st.map fun tr => obspyTraceMax tr.data))) ∧
    plot_st st false = .ok (st.map fun tr => (-(npMax tr.data), npMax tr.data)) := by
  rcases st with _ | ⟨a, _ | ⟨b, l⟩⟩
  · simp at h
  · simp at h
  · exact ⟨rfl, rfl⟩

/-- C1, witness for the amended theorem at the concrete two-trace collection. -/
theorem c1_amended_witness :
    2 ≤ ([trNeg, trPos] : List PTrace).length ∧
      (plot_st [trNeg, trPos] true =
        .ok ([trNeg, trPos].map fun _ =>
          (-(npMax ([trNeg, trPos].map fun tr => obspyTraceMax tr.data)),
            npMax ([trNeg, trPos].map fun tr => obspyTraceMax tr.data))) ∧
      plot_st [trNeg, trPos] false =
        .ok ([trNeg, trPos].map fun tr => (-(npMax tr.data), npMax tr.data))) :=
  ⟨by decide, c1_amended [trNeg, trPos] (by decide)⟩

/-! ## Claim C2 -/

/-- C2, counterexample: `plot_time_slice` DOES mutate the caller's stack.
`SgeoC2` is a benign geographic stack (latitudes 10-11, so the line-86
projection succeeds) and `demC` a drawable 2 by 2 DEM (values 50/100 give
well-formed contour levels, so lines 152-170 complete) whose cell nearest to
the slice cell (y=10, x=20) is NaN: the masking write of line 178 goes
through the numpy view of the selected time plane, and after the call the
cell (0,0,0) of the caller's `SgeoC2` has become NaN, although it was 1
before. -/
theorem c2_counterexample :
    (plot_time_slice projZ id SgeoC2 [] none (some demC) false none).S_after.val 0 0 0 = none ∧
    SgeoC2.val 0 0 0 = some 1 ∧
    (plot_time_slice projZ id SgeoC2 [] none (some demC) false none).S_after ≠ SgeoC2 := by
  have h1 : (plot_time_slice projZ id SgeoC2 [] none (some demC) false none).S_after.val 0 0 0
      = none := by
    norm_num [plot_time_slice, tsFinish, tsTi, tsYmin, tsYmax, demAllNaN, argminIdx,
      peakIdx, ties, isMaxB, maxVal, allVals, npMin, npMax, ratAbs, SgeoC2, demC, projZ,
      List.range_succ]
  refine ⟨h1, by norm_num [SgeoC2], ?_⟩
  intro h
  rw [h] at h1
  simp [SgeoC2] at h1

/-- C2, amended: the waveform collection is defensively copied, so the
caller's stream is unchanged by every `plot_time_slice` call; and as long as
no DEM is supplied the caller's stack `S` is unchanged as well.  (With a DEM,
the masking of cells outside the DEM's valid extent writes NaN through the
slice view into the caller's `S` — see the counterexample; the in-place sort
of a caller-supplied celerity list in `plot_record_section` is claim C10.) -/
theorem c2_amended (proj : ℚ → ℚ → ℚ × ℚ) (unprojXY : ℚ × ℚ → ℚ × ℚ) (S : Stack)
    (st : List PTrace) (ts : Option ℚ) (dem : Option Dem) (pp : Bool)
    (xy : Option PyNum) :
    (plot_time_slice proj unprojXY S st ts dem pp xy).st_after = st ∧
    (dem = none → (plot_time_slice proj unprojXY S st ts dem pp xy).S_after = S) := by
  rcases pts_cases proj unprojXY S st ts dem pp xy with ⟨e, he⟩ | ⟨shift, window, hf⟩
  · rw [he]
    exact ⟨rfl, fun _ => rfl⟩
  · rw [hf]
    refine ⟨tsFinish_st_after .., ?_⟩
    intro hdem
    subst hdem
    exact tsFinish_S_after_noDem ..

/-- C2, witness for the amended theorem at concrete inputs. -/
theorem c2_amended_witness :
    (plot_time_slice projZ id Sgeo [] none none false none).st_after = [] ∧
    (none = (none : Option Dem) →
      (plot_time_slice projZ id Sgeo [] none none false none).S_after = Sgeo) :=
  c2_amended projZ id Sgeo [] none none false none

/-! ## Claim C3 -/

/-- C3, counterexample: `xy_grid = 0` on a geographic-grid stack does NOT
raise — Python truthiness skips the whole recentring block, so the call runs
to completion and returns a figure, although the docstring promises the
option takes effect for any non-None value.  The input uses latitudes 10-11
(so the line-86 projection succeeds) and supplies the drawable DEM `demC`
(so the background branch is the well-formed contour path). -/
theorem c3_counterexample :
    SgeoC2.UTM = false ∧
    exceptOk (plot_time_slice projZ id SgeoC2 [] none (some demC) false
      (some (.int 0))).result = true := by
  constructor
  · rfl
  · norm_num [plot_time_slice, tsFinish, tsYmin, tsYmax, npMin, npMax, demAllNaN,
      PyNum.truthy, exceptOk, SgeoC2, demC, projZ, List.range_succ, min_def, max_def]

/-- C3, amended: for every geographic-grid stack whose latitude extremes are
not opposite (otherwise the AlbersEqualArea construction at line 86 raises a
projection error first, for any `xy_grid`) and every truthy (non-zero) value
of `xy_grid`, `plot_time_slice` raises
`ValueError(xy_grid can only be used with projected grids!)` and returns no
figure; the value 0 (int or float) is falsy and is treated as if the option
had not been requested. -/
theorem c3_amended (proj : ℚ → ℚ → ℚ × ℚ) (unprojXY : ℚ × ℚ → ℚ × ℚ) (S : Stack)
    (st : List PTrace) (ts : Option ℚ) (dem : Option Dem) (pp : Bool) (v : PyNum)
    (hv : v.truthy = true) (hUTM : S.UTM = false)
    (hpar : tsYmin S + tsYmax S ≠ 0) :
    (plot_time_slice proj unprojXY S st ts dem pp (some v)).result =
      .error (.valueError "xy_grid can only be used with projected grids!") := by
  unfold plot_time_slice
  simp [hv, hUTM, hpar]

/-- C3, witness for the amended theorem at a concrete off-equator geographic
stack and window 5. -/
theorem c3_amended_witness :
    (PyNum.int 5).truthy = true ∧ SgeoC2.UTM = false ∧
    tsYmin SgeoC2 + tsYmax SgeoC2 ≠ 0 ∧
    (plot_time_slice projZ id SgeoC2 [] none none false (some (.int 5))).result =
      .error (.valueError "xy_grid can only be used with projected grids!") :=
  ⟨by decide, rfl,
    by norm_num [tsYmin, tsYmax, npMin, npMax, SgeoC2, List.range_succ],
    c3_amended projZ id SgeoC2 [] none none false (.int 5) (by decide) rfl
      (by norm_num [tsYmin, tsYmax, npMin, npMax, SgeoC2, List.range_succ])⟩

/-! ## Claim C5 -/

/-- C5: at the failing input — a projected-grid stack with a float recentring
window — `plot_time_slice` raises `ValueError` from the format-code-d
f-string of line 121 instead of recentring (the docstring allows int or
float windows); and the claimed behaviour does hold for nonzero integer
windows: the axis limits become exactly `[-w, w]` and the grid-center,
stack-maximum and station markers are all shifted by the same offset
`(tsX0 S, tsY0 S)` relative to the run without recentring, preserving their
pairwise relative distances.  The `demDrawable` hypothesis excludes the
degenerate DEMs for which the contour block of lines 152-170 raises before
the limits are ever set (see `tsFinish`). -/
theorem c5_theorem :
    ((plot_time_slice projZ id Sutm [] none none false (some (.float (1/2)))).result =
      .error (.valueError "Unknown format code d for object of type float")) ∧
    (∀ (proj : ℚ → ℚ → ℚ × ℚ) (unprojXY : ℚ × ℚ → ℚ × ℚ) (S : Stack)
        (st : List PTrace) (ts : Option ℚ) (dem : Option Dem) (pp : Bool) (w : ℤ),
      w ≠ 0 → S.UTM = true → demDrawable dem →
      ∃ figW fig0,
        (plot_time_slice proj unprojXY S st ts dem pp (some (.int w))).result = .ok figW ∧
        (plot_time_slice proj unprojXY S st ts dem pp none).result = .ok fig0 ∧
        figW.xlim = some (-(w : ℚ), (w : ℚ)) ∧
        figW.ylim = some (-(w : ℚ), (w : ℚ)) ∧
        figW.gridCenterMarker =
          (fig0.gridCenterMarker.1 - tsX0 S, fig0.gridCenterMarker.2 - tsY0 S) ∧
        figW.maxMarker = (fig0.maxMarker.1 - tsX0 S, fig0.maxMarker.2 - tsY0 S) ∧
        figW.stationMarkers =
          fig0.stationMarkers.map (fun q => (q.1 - tsX0 S, q.2 - tsY0 S)) ∧
        figW.maxMarker.1 - figW.gridCenterMarker.1 =
          fig0.maxMarker.1 - fig0.gridCenterMarker.1 ∧
        figW.maxMarker.2 - figW.gridCenterMarker.2 =
          fig0.maxMarker.2 - fig0.gridCenterMarker.2) := by
  constructor
  · simp [plot_time_slice, PyNum.truthy, PyNum.formatD, Sutm]
  · intro proj unprojXY S st ts dem pp w hw hU hdem
    have htr : (PyNum.int w).truthy = true := by simp [PyNum.truthy, hw]
    have h1 : plot_time_slice proj unprojXY S st ts dem pp (some (.int w)) =
        tsFinish S (tsTi S ts) (tsBaseWarns S pp) (tsPlotPeak S pp) dem
          (some (tsX0 S, tsY0 S)) (some (PyNum.int w).toRat)
          (tsLonLat0 proj S).1 (tsLonLat0 proj S).2
          (tsXYMax proj unprojXY S).1 (tsXYMax proj unprojXY S).2
          (tsSt1 proj S st) st := by
      unfold plot_time_slice
      simp [htr, hU, PyNum.formatD]
    have h0 : plot_time_slice proj unprojXY S st ts dem pp none =
        tsFinish S (tsTi S ts) (tsBaseWarns S pp) (tsPlotPeak S pp) dem none none
          (tsLonLat0 proj S).1 (tsLonLat0 proj S).2
          (tsXYMax proj unprojXY S).1 (tsXYMax proj unprojXY S).2
          (tsSt1 proj S st) st := by
      unfold plot_time_slice
      simp [hU]
    refine ⟨_, _, (by rw [h1]; exact tsFinish_result_drawable _ _ _ _ _ _ _ _ _ _ _ _ _ hdem),
            (by rw [h0]; exact tsFinish_result_drawable _ _ _ _ _ _ _ _ _ _ _ _ _ hdem), ?_, ?_, ?_, ?_, ?_, ?_, ?_⟩
    · simp [PyNum.toRat]
    · simp [PyNum.toRat]
    · simp [sub_zero]
    · simp [sub_zero]
    · simp [List.map_map, Function.comp_def, sub_zero]
    · dsimp only
      ring
    · dsimp only
      ring

/-- C5, witness: the theorem applied at a concrete projected stack with
integer window 100. -/
theorem c5_witness :
    (100 : ℤ) ≠ 0 ∧ Sutm.UTM = true ∧ demDrawable (none : Option Dem) ∧
    (∃ figW fig0,
      (plot_time_slice projZ id Sutm [] none none false (some (.int 100))).result = .ok figW ∧
      (plot_time_slice projZ id Sutm [] none none false none).result = .ok fig0 ∧
      figW.xlim = some (-(100 : ℚ), (100 : ℚ)) ∧
      figW.ylim = some (-(100 : ℚ), (100 : ℚ)) ∧
      figW.gridCenterMarker =
        (fig0.gridCenterMarker.1 - tsX0 Sutm, fig0.gridCenterMarker.2 - tsY0 Sutm) ∧
      figW.maxMarker = (fig0.maxMarker.1 - tsX0 Sutm, fig0.maxMarker.2 - tsY0 Sutm) ∧
      figW.stationMarkers =
        fig0.stationMarkers.map (fun q => (q.1 - tsX0 Sutm, q.2 - tsY0 Sutm)) ∧
      figW.maxMarker.1 - figW.gridCenterMarker.1 =
        fig0.maxMarker.1 - fig0.gridCenterMarker.1 ∧
      figW.maxMarker.2 - figW.gridCenterMarker.2 =
        fig0.maxMarker.2 - fig0.gridCenterMarker.2) :=
  ⟨by decide, rfl, trivial,
    c5_theorem.2 projZ id Sutm [] none none false 100 (by decide) rfl trivial⟩

/-! ## Claim C8 -/

/-- C8, counterexample: on a single-time-sample stack with `plot_peak=False`
passed, `plot_time_slice` emits NO warning (the warning of line 59 is guarded
by `plot_peak and len(S.time) == 1`), contradicting the claim that exactly
one warning is emitted regardless of the other options. -/
theorem c8_counterexample :
    Sgeo.nt = 1 ∧
    (plot_time_slice projZ id Sgeo [] none none false none).warns = [] := by
  refine ⟨rfl, ?_⟩
  norm_num [plot_time_slice, tsFinish, tsYmin, tsYmax, npMin, npMax, tsBaseWarns,
    Sgeo, List.range_succ]

/-- C8, amended: for every stack with exactly one time sample, a
`plot_time_slice` call that requests the peak subplot (`plot_peak=True`)
disables the subplot and emits exactly one warning, regardless of the
remaining options; with `plot_peak=False` no warning is emitted (see the
counterexample). -/
theorem c8_amended (proj : ℚ → ℚ → ℚ × ℚ) (unprojXY : ℚ × ℚ → ℚ × ℚ) (S : Stack)
    (st : List PTrace) (ts : Option ℚ) (dem : Option Dem) (xy : Option PyNum)
    (h1 : S.nt = 1) :
    (plot_time_slice proj unprojXY S st ts dem true xy).warns = [Warn.stackLenOne] ∧
    (∀ f, (plot_time_slice proj unprojXY S st ts dem true xy).result = .ok f →
      f.peakSubplot = false) := by
  have hbw : tsBaseWarns S true = [Warn.stackLenOne] := by simp [tsBaseWarns, h1]
  have hpp : tsPlotPeak S true = false := by simp [tsPlotPeak, h1]
  rcases pts_cases proj unprojXY S st ts dem true xy with ⟨e, he⟩ | ⟨shift, window, hf⟩
  · rw [he]
    constructor
    · exact hbw
    · intro f hf2
      exact absurd hf2 (by simp)
  · rw [hf]
    constructor
    · exact (tsFinish_warns_peak_false _ _ _ _ _ _ _ _ _ _ _ _ _ hpp).trans hbw
    · intro f hf2
      have hfig := tsFinish_result_ok _ _ _ _ _ _ _ _ _ _ _ _ _ f hf2
      rw [hfig]
      exact hpp

/-- C8, witness for the amended theorem on the concrete single-time stack. -/
theorem c8_amended_witness :
    Sgeo.nt = 1 ∧
    ((plot_time_slice projZ id Sgeo [] none none true none).warns = [Warn.stackLenOne] ∧
     ∀ f, (plot_time_slice projZ id Sgeo [] none none true none).result = .ok f →
       f.peakSubplot = false) :=
  ⟨rfl, c8_amended projZ id Sgeo [] none none none rfl⟩

/-! ## Claim C9 -/

/-- C9: whenever `plot_time_slice` returns a figure, the displayed slice is
the slice of `S` at an index whose time is nearest to the requested time —
or, when no time is requested, nearest to the (spec-modelled) time of the
global maximum of `S` (which that slice then equals). -/
theorem c9_theorem (proj : ℚ → ℚ → ℚ × ℚ) (unprojXY : ℚ × ℚ → ℚ × ℚ) (S : Stack)
    (st : List PTrace) (ts : Option ℚ) (dem : Option Dem) (pp : Bool)
    (xy : Option PyNum) (hnt : 0 < S.nt) :
    ∀ f, (plot_time_slice proj unprojXY S st ts dem pp xy).result = .ok f →
      f.sliceIdx < S.nt ∧ f.sliceTime = S.times f.sliceIdx ∧
      ∀ j < S.nt,
        ratAbs (S.times f.sliceIdx - ts.getD (S.times (peakIdx S).1)) ≤
          ratAbs (S.times j - ts.getD (S.times (peakIdx S).1)) := by
  intro f hok
  rcases pts_cases proj unprojXY S st ts dem pp xy with ⟨e, he⟩ | ⟨shift, window, hf⟩
  · rw [he] at hok
    exact absurd hok (by simp)
  · rw [hf] at hok
    have hfig := tsFinish_result_ok _ _ _ _ _ _ _ _ _ _ _ _ _ f hok
    subst hfig
    dsimp only
    unfold tsTi
    refine ⟨argminIdx_lt _ _ hnt, rfl, ?_⟩
    intro j hj
    exact argminIdx_min S.nt
      (fun i => ratAbs (S.times i - ts.getD (S.times (peakIdx S).1))) j hj

/-- C9, witness: concrete two-time stack with requested time 5 (nearest is
the later sample). -/
theorem c9_witness :
    0 < Sutm.nt ∧
    ((figOf (plot_time_slice projZ id Sutm [] (some 5) none false none)).sliceIdx < Sutm.nt ∧
     (figOf (plot_time_slice projZ id Sutm [] (some 5) none false none)).sliceTime =
       Sutm.times (figOf (plot_time_slice projZ id Sutm [] (some 5) none false none)).sliceIdx ∧
     ∀ j < Sutm.nt,
       ratAbs (Sutm.times
           (figOf (plot_time_slice projZ id Sutm [] (some 5) none false none)).sliceIdx -
         (some (5 : ℚ)).getD (Sutm.times (peakIdx Sutm).1)) ≤
         ratAbs (Sutm.times j - (some (5 : ℚ)).getD (Sutm.times (peakIdx Sutm).1))) :=
  ⟨by decide,
    c9_theorem projZ id Sutm [] (some 5) none false none (by decide)
      (figOf (plot_time_slice projZ id Sutm [] (some 5) none false none)) rfl⟩

/-! ## Claim C6 -/

/-- C6: with `plot_celerity=range` the celerity list is exactly
`220 + k * 0.5` for `k = 0 .. 260` — spanning 220 to 350 m/s inclusive in
fixed 0.5 m/s steps — and each line is drawn with axis slope `c / 1000`
(km per second, i.e. a distance/time slope of `c` m/s); with an explicit
list the lines are drawn in ascending sorted order with the legend keyed by
the same sorted values, e.g. `[300, 250, 350]` is drawn as
`[250, 300, 350]`. -/
theorem c6_theorem :
    celerityList .range = (List.range 261).map (fun k : ℕ => 220 + (k : ℚ) * (1/2)) ∧
    (220 : ℚ) ∈ celerityList .range ∧
    (350 : ℚ) ∈ celerityList .range ∧
    (∀ c ∈ celerityList .range, (220 : ℚ) ≤ c ∧ c ≤ 350) ∧
    (∀ k, k + 1 < 261 →
      ((celerityList .range)[k+1]?).getD 0 - ((celerityList .range)[k]?).getD 0 = 1/2) ∧
    (∀ (gdist : ℚ → ℚ → ℚ → ℚ → ℚ) (st : List PTrace) (ot : ℚ) (src : ℚ × ℚ)
        (lw : Bool),
      (plot_record_section gdist st ot src .range lw).lineSlopes =
        (celerityList .range).map (fun c => c / 1000)) ∧
    ((plot_record_section (fun _ _ _ _ => 0) [] 0 (0, 0) (.list [300, 250, 350]) true).lineSlopes
        = [250/1000, 300/1000, 350/1000] ∧
      (plot_record_section (fun _ _ _ _ => 0) [] 0 (0, 0) (.list [300, 250, 350]) true).legendValues
        = some [250, 300, 350]) ∧
    (∀ (gdist : ℚ → ℚ → ℚ → ℚ → ℚ) (st : List PTrace) (ot : ℚ) (src : ℚ × ℚ)
        (lw : Bool) (l : List ℚ), l ≠ [] →
      (plot_record_section gdist st ot src (.list l) lw).lineSlopes =
        (List.insertionSort (· ≤ ·) l).map (fun c => c / 1000) ∧
      (plot_record_section gdist st ot src (.list l) lw).legendValues =
        some (List.insertionSort (· ≤ ·) l) ∧
      List.Sorted (· ≤ ·) (List.insertionSort (· ≤ ·) l) ∧
      (List.insertionSort (· ≤ ·) l).Perm l) := by
  have harange : celerityList .range =
      (List.range 261).map (fun k : ℕ => 220 + (k : ℚ) * (1/2)) := by
    unfold celerityList npArange
    have hceil : (⌈((350 + 1/2 : ℚ) - 220) / (1/2)⌉ : ℤ) = 261 := by norm_num
    rw [hceil]
    have h261 : ((261 : ℤ)).toNat = 261 := rfl
    rw [h261]
  refine ⟨harange, ?_, ?_, ?_, ?_, ?_, ⟨rfl, rfl⟩, ?_⟩
  · rw [harange]
    refine List.mem_map.mpr ⟨0, List.mem_range.mpr (by norm_num), by norm_num⟩
  · rw [harange]
    refine List.mem_map.mpr ⟨260, List.mem_range.mpr (by norm_num), by norm_num⟩
  · rw [harange]
    intro c hc
    rcases List.mem_map.mp hc with ⟨k, hk, hck⟩
    have hk261 : k < 261 := List.mem_range.mp hk
    constructor
    · rw [← hck]
      have : (0 : ℚ) ≤ (k : ℚ) * (1/2) := by positivity
      linarith
    · rw [← hck]
      have hkle : (k : ℚ) ≤ 260 := by exact_mod_cast Nat.le_of_lt_succ hk261
      linarith
  · intro k hk
    rw [harange]
    have hk1 : k + 1 < 261 := hk
    have hk0 : k < 261 := by omega
    rw [List.getElem?_map, List.getElem?_map, List.getElem?_range hk1, List.getElem?_range hk0]
    simp only [Option.map_some', Option.getD_some]
    push_cast
    ring
  · intro gdist st ot src lw
    rfl
  · intro gdist st ot src lw l hl
    have htr : celTruthy (.list l) = true := by
      rcases l with _ | ⟨a, l⟩
      · exact absurd rfl hl
      · rfl
    refine ⟨?_, ?_, List.sorted_insertionSort _ l, List.perm_insertionSort _ l⟩
    · unfold plot_record_section
      rw [if_pos htr]
      rfl
    · unfold plot_record_section
      dsimp only
      rw [if_pos htr]
      rfl

/-- C6, witness discharging the nonemptiness hypothesis of the sorted-list
part at the list of the claim. -/
theorem c6_witness :
    ([300, 250, 350] : List ℚ) ≠ [] ∧
    ((plot_record_section (fun _ _ _ _ => 0) [] 0 (0, 0) (.list [300, 250, 350]) true).lineSlopes =
        (List.insertionSort (· ≤ ·) [300, 250, 350]).map (fun c => c / 1000) ∧
      (plot_record_section (fun _ _ _ _ => 0) [] 0 (0, 0) (.list [300, 250, 350]) true).legendValues =
        some (List.insertionSort (· ≤ ·) [300, 250, 350]) ∧
      List.Sorted (· ≤ ·) (List.insertionSort (· ≤ ·) ([300, 250, 350] : List ℚ)) ∧
      (List.insertionSort (· ≤ ·) ([300, 250, 350] : List ℚ)).Perm [300, 250, 350]) :=
  ⟨by decide,
    (c6_theorem.2.2.2.2.2.2.2) (fun _ _ _ _ => 0) [] 0 (0, 0) true [300, 250, 350] (by decide)⟩

/-! ## Claim C7 -/

/-- C7: the distance assigned to every trace is exactly the value of the
external geodesic distance collaborator (`gps2dist_azimuth`, called with the
source location first and the trace's recorded station coordinates second),
and the y-position used for axis placement/labelling is that distance
divided by 1000 (km). -/
theorem c7_theorem (gdist : ℚ → ℚ → ℚ → ℚ → ℚ) (st : List PTrace) (ot : ℚ)
    (src : ℚ × ℚ) (pc : CelerityArg) :
    (plot_record_section gdist st ot src pc true).distances =
      st.map (fun tr => gdist src.1 src.2 tr.latitude tr.longitude) ∧
    (plot_record_section gdist st ot src pc true).labelYs =
      (plot_record_section gdist st ot src pc true).distances.map (fun d => d / 1000) :=
  ⟨rfl, rfl⟩

/-! ## Claim C10 -/

/-- C10: when `plot_record_section` is given a Python list of celerities, the
caller's list object is sorted in place — after the call it holds the same
values in ascending order (observably reordered, e.g. `[300, 250, 350]`
becomes `[250, 300, 350]`) — while the waveform collection is copied and
returned to the caller unchanged. -/
theorem c10_theorem :
    (∀ (gdist : ℚ → ℚ → ℚ → ℚ → ℚ) (st : List PTrace) (ot : ℚ) (src : ℚ × ℚ)
        (lw : Bool) (l : List ℚ),
      (plot_record_section gdist st ot src (.list l) lw).celerityAfter =
        .list (List.insertionSort (· ≤ ·) l) ∧
      (plot_record_section gdist st ot src (.list l) lw).stAfter = st) ∧
    (plot_record_section (fun _ _ _ _ => 0) [] 0 (0, 0) (.list [300, 250, 350]) true).celerityAfter
      = .list [250, 300, 350] ∧
    CelerityArg.list [250, 300, 350] ≠ CelerityArg.list [300, 250, 350] := by
  refine ⟨?_, rfl, by decide⟩
  intro gdist st ot src lw l
  constructor
  · rcases l with _ | ⟨a, l⟩ <;> rfl
  · rfl

end RTM
